import Mathlib

/-!
Shallow embedding of the ERPlora kitchen module (KDS).

The data model and transition methods follow `src/models.py`
(`KitchenOrder`, `KitchenOrderItem`), the request handlers follow
`src/views.py`, and the ingestion hook follows `src/signals.py`.
Django persistence collapses to explicit state passing: a model method
that mutates and saves becomes a function returning the new record, and
`timezone.now()` becomes an explicit `now : Nat` argument.  Where the
views call methods of the external `orders` module (absent from this
repository) the definition is modelled from the spec and says so in its
doc comment.
-/

/-- Order status values.  `src/models.py` declares pending / preparing /
ready / served / cancelled for `KitchenOrder`; the view layer
(`src/views.py` history and cancel guards) additionally uses `paid`. -/
inductive OrderStatus
  | pending
  | preparing
  | ready
  | served
  | cancelled
  | paid
deriving DecidableEq, Repr

/-- Item status values (`KitchenOrderItem.STATUS_CHOICES`). -/
inductive ItemStatus
  | pending
  | preparing
  | ready
deriving DecidableEq, Repr

/-- A `KitchenOrder` row (`src/models.py` 86-216).  Timestamps are
naturals; a nullable `DateTimeField` is an `Option Nat`. -/
structure KitchenOrder where
  sale_id : String
  table_id : Option Nat
  table_number : String
  order_number : String
  status : OrderStatus
  priority : Nat
  notes : String
  created_at : Nat
  accepted_at : Option Nat
  ready_at : Option Nat
  served_at : Option Nat
deriving DecidableEq, Repr

/-- A `KitchenOrderItem` row (`src/models.py` 219-295), minus the
back-reference to its order (the aggregate below carries that). -/
structure KitchenOrderItem where
  product_id : String
  product_name : String
  quantity : Nat
  modifiers : String
  notes : String
  status : ItemStatus
  created_at : Nat
deriving DecidableEq, Repr

/-- An order together with its items (`order.items` related set). -/
structure OrderAggregate where
  order : KitchenOrder
  items : List KitchenOrderItem
deriving DecidableEq, Repr

/-- `KitchenOrder.accept` (models.py 195-199): status := preparing and
accepted_at := now, saved together in one call. -/
def KitchenOrder.accept (o : KitchenOrder) (now : Nat) : KitchenOrder :=
  { o with status := OrderStatus.preparing, accepted_at := some now }

/-- `KitchenOrder.mark_ready` (models.py 201-205): status := ready and
ready_at := now, saved together in one call. -/
def KitchenOrder.mark_ready (o : KitchenOrder) (now : Nat) : KitchenOrder :=
  { o with status := OrderStatus.ready, ready_at := some now }

/-- `KitchenOrder.mark_served` (models.py 207-211): status := served and
served_at := now, saved together in one call. -/
def KitchenOrder.mark_served (o : KitchenOrder) (now : Nat) : KitchenOrder :=
  { o with status := OrderStatus.served, served_at := some now }

/-- `KitchenOrder.cancel` (models.py 213-216): status := cancelled;
`save(update_fields=[ (strip) status])` persists only the status field. -/
def KitchenOrder.cancel (o : KitchenOrder) : KitchenOrder :=
  { o with status := OrderStatus.cancelled }

/-- Modelled from the spec: `Order.fire` lives in the external `orders`
module (src/views.py calls it for the pending move). Per spec 4.1 the
pending bump row reads "= accept": status := preparing, accepted_at
stamped. -/
def KitchenOrder.fire (o : KitchenOrder) (now : Nat) : KitchenOrder :=
  o.accept now

/-- Modelled from the spec: `Order.recall` lives in the external `orders`
module; spec 4.1: served becomes ready again, served_at "clear/ignore
per version" — modelled as ignored (left unchanged). -/
def KitchenOrder.recall (o : KitchenOrder) : KitchenOrder :=
  { o with status := OrderStatus.ready }

/-- Replace the status of the item at position `i` with `ready`,
leaving every other item untouched (the persisted effect of
`KitchenOrderItem.mark_ready`'s own save, models.py 284-287). -/
def setItemReady : List KitchenOrderItem → Nat → List KitchenOrderItem
  | [], _ => []
  | it :: rest, 0 => { it with status := ItemStatus.ready } :: rest
  | it :: rest, Nat.succ n => it :: setItemReady rest n

/-- `self.order.items.exclude(status=READY).exists()` (models.py 293):
does some item have a status other than ready. -/
def itemsPendingExists (l : List KitchenOrderItem) : Bool :=
  l.any (fun it => decide (it.status ≠ ItemStatus.ready))

/-- `KitchenOrderItem._check_order_ready` (models.py 291-295): if no
item is non-ready, invoke the order's mark_ready; otherwise leave the
order alone. -/
def checkOrderReady (agg : OrderAggregate) (now : Nat) : OrderAggregate :=
  if itemsPendingExists agg.items then agg
  else { agg with order := agg.order.mark_ready now }

/-- `KitchenOrderItem.mark_ready` (models.py 284-289): set the item's
status to ready, save, then run `_check_order_ready` on the owning
order's aggregate.  The item is addressed by its position. -/
def itemMarkReady (agg : OrderAggregate) (i : Nat) (now : Nat) : OrderAggregate :=
  checkOrderReady { agg with items := setItemReady agg.items i } now

/-- Are all items of the list ready (the condition under which
`_check_order_ready` fires the order transition). -/
def allReady (l : List KitchenOrderItem) : Bool :=
  l.all (fun it => decide (it.status = ItemStatus.ready))

/-- The JSON body of a view response: `success`, and the `status` /
`error` keys when present (src/views.py JsonResponse payloads). -/
structure ApiResponse where
  success : Bool
  status : Option OrderStatus
  error : Option String
deriving DecidableEq, Repr

/-- `start_order` (views.py 112-122): guard status == pending, then
`order.fire()`; otherwise a structured failure and no state change. -/
def start_order (o : KitchenOrder) (now : Nat) : ApiResponse × KitchenOrder :=
  if o.status = OrderStatus.pending then
    let o2 := o.fire now
    ({ success := true, status := some o2.status, error := none }, o2)
  else
    ({ success := false, status := none, error := some "Order is not pending" }, o)

/-- `bump_order` (views.py 127-145): dispatch on the current status —
pending fires, preparing goes ready, ready goes served, anything else
is a structured "No action available" failure with no state change. -/
def bump_order (o : KitchenOrder) (now : Nat) : ApiResponse × KitchenOrder :=
  if o.status = OrderStatus.pending then
    let o2 := o.fire now
    ({ success := true, status := some o2.status, error := none }, o2)
  else if o.status = OrderStatus.preparing then
    let o2 := o.mark_ready now
    ({ success := true, status := some o2.status, error := none }, o2)
  else if o.status = OrderStatus.ready then
    let o2 := o.mark_served now
    ({ success := true, status := some o2.status, error := none }, o2)
  else
    ({ success := false, status := none, error := some "No action available" }, o)

/-- `complete_order` (views.py 150-160): guard status in
(pending, preparing), then `order.mark_ready()`. -/
def complete_order (o : KitchenOrder) (now : Nat) : ApiResponse × KitchenOrder :=
  if o.status = OrderStatus.pending ∨ o.status = OrderStatus.preparing then
    let o2 := o.mark_ready now
    ({ success := true, status := some o2.status, error := none }, o2)
  else
    ({ success := false, status := none, error := some "Order cannot be marked ready" }, o)

/-- `serve_order` (views.py 165-175): guard status == ready, then
`order.mark_served()`; otherwise a structured failure, no state change. -/
def serve_order (o : KitchenOrder) (now : Nat) : ApiResponse × KitchenOrder :=
  if o.status = OrderStatus.ready then
    let o2 := o.mark_served now
    ({ success := true, status := some o2.status, error := none }, o2)
  else
    ({ success := false, status := none, error := some "Order is not ready" }, o)

/-- `recall_order` (views.py 180-190): guard status == served, then
`order.recall()`. -/
def recall_order (o : KitchenOrder) : ApiResponse × KitchenOrder :=
  if o.status = OrderStatus.served then
    let o2 := o.recall
    ({ success := true, status := some o2.status, error := none }, o2)
  else
    ({ success := false, status := none, error := some "Order cannot be recalled" }, o)

/-- `cancel_order` (views.py 213-224): guard status not in
(served, paid, cancelled), then `order.cancel(...)`. -/
def cancel_order (o : KitchenOrder) : ApiResponse × KitchenOrder :=
  if o.status = OrderStatus.served ∨ o.status = OrderStatus.paid ∨
      o.status = OrderStatus.cancelled then
    ({ success := false, status := none, error := some "Order cannot be cancelled" }, o)
  else
    let o2 := o.cancel
    ({ success := true, status := some o2.status, error := none }, o2)

/-- `set_priority` (views.py 195-208): write the requested priority
(the integer priority of the models.py generation). -/
def set_priority (o : KitchenOrder) (p : Nat) : KitchenOrder :=
  { o with priority := p }

/-- `bump_item` (views.py 251-263): no guard at all — the item's
mark_ready runs unconditionally and the response reports the resulting
order status. -/
def bump_item (agg : OrderAggregate) (i : Nat) (now : Nat) : ApiResponse × OrderAggregate :=
  let agg2 := itemMarkReady agg i now
  ({ success := true, status := some agg2.order.status, error := none }, agg2)

/-- One request at the public mutating command surface of
`src/views.py` / `src/urls.py`. -/
inductive Command
  | start
  | bump
  | complete
  | serve
  | recall
  | cancel
  | setPriority (p : Nat)
  | bumpItem (i : Nat)
deriving DecidableEq, Repr

/-- Run one command against an order aggregate at time `now`,
keeping the persisted state the view leaves behind. -/
def applyCommand (agg : OrderAggregate) (now : Nat) : Command → OrderAggregate
  | Command.start => { agg with order := (start_order agg.order now).2 }
  | Command.bump => { agg with order := (bump_order agg.order now).2 }
  | Command.complete => { agg with order := (complete_order agg.order now).2 }
  | Command.serve => { agg with order := (serve_order agg.order now).2 }
  | Command.recall => { agg with order := (recall_order agg.order).2 }
  | Command.cancel => { agg with order := (cancel_order agg.order).2 }
  | Command.setPriority p => { agg with order := set_priority agg.order p }
  | Command.bumpItem i => (bump_item agg i now).2

/-- The successive persisted `KitchenOrder` states written by
`on_sale_created` (signals.py 42-55): `objects.create` persists the
first snapshot (status preparing when auto-accept is on, pending
otherwise, accepted_at always NULL at that point); with auto-accept a
second save then stamps accepted_at. -/
def on_sale_created_order_trace (auto_accept : Bool) (sid : String)
    (onum : String) (now : Nat) : List KitchenOrder :=
  let st := if auto_accept then OrderStatus.preparing else OrderStatus.pending
  let o1 : KitchenOrder :=
    { sale_id := sid, table_id := none, table_number := "", order_number := onum,
      status := st, priority := 0, notes := "", created_at := now,
      accepted_at := none, ready_at := none, served_at := none }
  if auto_accept then [o1, { o1 with accepted_at := some now }] else [o1]

/-- The row order produced by `order_by(-priority, created_at)`
(views.py 75, models.py Meta.ordering 154): higher priority first,
earlier creation first among equal priorities. -/
def displayLE (a b : KitchenOrder) : Prop :=
  b.priority < a.priority ∨ (a.priority = b.priority ∧ a.created_at ≤ b.created_at)

instance : DecidableRel displayLE := fun a b => by
  unfold displayLE; exact inferInstance

instance : IsTotal KitchenOrder displayLE :=
  ⟨fun a b => by unfold displayLE; omega⟩

instance : IsTrans KitchenOrder displayLE :=
  ⟨fun a b c hab hbc => by unfold displayLE at *; omega⟩

/-- The status filter of the active-orders queryset
(`status__in=[pending, preparing]`, views.py 71-75). -/
def isActiveStatus (o : KitchenOrder) : Bool :=
  decide (o.status = OrderStatus.pending ∨ o.status = OrderStatus.preparing)

/-- The `display` / `api_orders_list` queryset (views.py 71-75): the
stored orders with status pending or preparing, ordered by
`(-priority, created_at)`.  The database sort is modelled by insertion
sort under `displayLE`. -/
def displayOrders (orders : List KitchenOrder) : List KitchenOrder :=
  List.insertionSort displayLE (orders.filter isActiveStatus)

/-- Modelled from the spec: the `KitchenSettings` row (spec section 3,
"Settings") is declared in code absent from src/; its fields are the
ones the src/views.py save/toggle/input handlers read and write — seven
boolean toggles and five numeric thresholds. -/
structure KitchenSettings where
  auto_accept_orders : Bool
  show_timer : Bool
  sound_enabled : Bool
  sound_on_new_order : Bool
  sound_on_rush : Bool
  auto_bump_enabled : Bool
  color_coding_enabled : Bool
  warning_time_minutes : Int
  critical_time_minutes : Int
  items_per_page : Int
  auto_refresh_seconds : Int
  auto_bump_delay : Int
deriving DecidableEq, Repr

/-- A decoded JSON value as found in the settings-save request body. -/
inductive JVal
  | jbool (b : Bool)
  | jnum (n : Int)
  | jstr (s : String)
  | jnull
deriving DecidableEq, Repr

/-- Python `bool(value)` on a decoded JSON value. -/
def pyBool : JVal → Bool
  | JVal.jbool b => b
  | JVal.jnum n => decide (n ≠ 0)
  | JVal.jstr s => decide (s ≠ "")
  | JVal.jnull => false

/-- Value of a non-empty all-digit character run, else none. -/
def digitsVal? (l : List Char) : Option Nat :=
  if l ≠ [] ∧ l.all Char.isDigit then
    some (l.foldl (fun a c => a * 10 + (c.toNat - 48)) 0)
  else none

/-- Strip leading and trailing whitespace from a character list. -/
def stripChars (l : List Char) : List Char :=
  ((l.dropWhile Char.isWhitespace).reverse.dropWhile Char.isWhitespace).reverse

/-- Python `int(s)` on a string: strip whitespace, optional single
sign, decimal digits; anything else raises (none). -/
def pyIntOfString (s : String) : Option Int :=
  match stripChars s.toList with
  | '+' :: rest => (digitsVal? rest).map Int.ofNat
  | '-' :: rest => (digitsVal? rest).map (fun n => -(n : Int))
  | l => (digitsVal? l).map Int.ofNat

/-- Python `int(value)` on a decoded JSON value: ints and booleans
convert, strings parse, null raises TypeError (none). -/
def pyInt : JVal → Option Int
  | JVal.jbool b => some (if b then 1 else 0)
  | JVal.jnum n => some n
  | JVal.jstr s => pyIntOfString s
  | JVal.jnull => none

/-- The boolean field allow-list of `settings_save` (views.py 416-420). -/
def boolFields : List String :=
  ["auto_accept_orders", "show_timer", "sound_enabled",
   "sound_on_new_order", "sound_on_rush", "auto_bump_enabled",
   "color_coding_enabled"]

/-- The numeric field allow-list of `settings_save` (views.py 424-427). -/
def numericFields : List String :=
  ["warning_time_minutes", "critical_time_minutes",
   "items_per_page", "auto_refresh_seconds", "auto_bump_delay"]

/-- `setattr(config, f, v)` for a boolean field name. -/
def setBoolField (c : KitchenSettings) (f : String) (v : Bool) : KitchenSettings :=
  if f = "auto_accept_orders" then { c with auto_accept_orders := v }
  else if f = "show_timer" then { c with show_timer := v }
  else if f = "sound_enabled" then { c with sound_enabled := v }
  else if f = "sound_on_new_order" then { c with sound_on_new_order := v }
  else if f = "sound_on_rush" then { c with sound_on_rush := v }
  else if f = "auto_bump_enabled" then { c with auto_bump_enabled := v }
  else if f = "color_coding_enabled" then { c with color_coding_enabled := v }
  else c

/-- `setattr(config, f, v)` for a numeric field name. -/
def setIntField (c : KitchenSettings) (f : String) (v : Int) : KitchenSettings :=
  if f = "warning_time_minutes" then { c with warning_time_minutes := v }
  else if f = "critical_time_minutes" then { c with critical_time_minutes := v }
  else if f = "items_per_page" then { c with items_per_page := v }
  else if f = "auto_refresh_seconds" then { c with auto_refresh_seconds := v }
  else if f = "auto_bump_delay" then { c with auto_bump_delay := v }
  else c

/-- `getattr(config, f)` for a boolean field name (false off-list). -/
def getBoolField (c : KitchenSettings) (f : String) : Bool :=
  if f = "auto_accept_orders" then c.auto_accept_orders
  else if f = "show_timer" then c.show_timer
  else if f = "sound_enabled" then c.sound_enabled
  else if f = "sound_on_new_order" then c.sound_on_new_order
  else if f = "sound_on_rush" then c.sound_on_rush
  else if f = "auto_bump_enabled" then c.auto_bump_enabled
  else if f = "color_coding_enabled" then c.color_coding_enabled
  else false

/-- `getattr(config, f)` for a numeric field name (0 off-list). -/
def getIntField (c : KitchenSettings) (f : String) : Int :=
  if f = "warning_time_minutes" then c.warning_time_minutes
  else if f = "critical_time_minutes" then c.critical_time_minutes
  else if f = "items_per_page" then c.items_per_page
  else if f = "auto_refresh_seconds" then c.auto_refresh_seconds
  else if f = "auto_bump_delay" then c.auto_bump_delay
  else 0

/-- One pass of the boolean loop of `settings_save` (views.py 416-422):
`if field in data: setattr(config, field, bool(data[field]))`. -/
def applyBoolField (data : List (String × JVal)) (c : KitchenSettings)
    (f : String) : KitchenSettings :=
  match List.lookup f data with
  | some v => setBoolField c f (pyBool v)
  | none => c

/-- One pass of the numeric loop of `settings_save` (views.py 424-432):
`try: setattr(config, field, int(data[field])) except: pass`. -/
def applyNumField (data : List (String × JVal)) (c : KitchenSettings)
    (f : String) : KitchenSettings :=
  match List.lookup f data with
  | some v =>
    match pyInt v with
    | some n => setIntField c f n
    | none => c
  | none => c

/-- `settings_save` (views.py 409-437): an undecodable body fails with
success=false and no change; a decoded body applies the boolean loop,
then the numeric loop, and reports success. -/
def settings_save (c : KitchenSettings) :
    Option (List (String × JVal)) → Bool × KitchenSettings
  | none => (false, c)
  | some data =>
    let c1 := boolFields.foldl (applyBoolField data) c
    let c2 := numericFields.foldl (applyNumField data) c1
    (true, c2)

/-- The documented default settings (the values `settings_reset` writes,
views.py 503-514, with the two sound choices as their boolean reading). -/
def defaultSettings : KitchenSettings :=
  { auto_accept_orders := false, show_timer := true, sound_enabled := true,
    sound_on_new_order := true, sound_on_rush := true,
    auto_bump_enabled := false, color_coding_enabled := true,
    warning_time_minutes := 15, critical_time_minutes := 30,
    items_per_page := 20, auto_refresh_seconds := 10, auto_bump_delay := 5 }

/-- A concrete settings-save body: one unparseable numeric value, one
parseable numeric value, one boolean. -/
def sampleSaveData : List (String × JVal) :=
  [("warning_time_minutes", JVal.jstr "abc"),
   ("critical_time_minutes", JVal.jstr "45"),
   ("show_timer", JVal.jbool false)]

/-- A concrete item used to evaluate the model. -/
def sampleItem (st : ItemStatus) : KitchenOrderItem :=
  { product_id := "p1", product_name := "Burger", quantity := 1,
    modifiers := "", notes := "", status := st, created_at := 0 }

/-- A concrete order used to evaluate the model. -/
def sampleOrder (st : OrderStatus) : KitchenOrder :=
  { sale_id := "s1", table_id := none, table_number := "5",
    order_number := "42", status := st, priority := 0, notes := "",
    created_at := 0, accepted_at := none, ready_at := none,
    served_at := none }

/-- A preparing order with one still-pending item. -/
def sampleAggregate : OrderAggregate :=
  { order := { sampleOrder OrderStatus.preparing with accepted_at := some 0 },
    items := [sampleItem ItemStatus.pending] }

/-- A cancelled order with one still-pending item. -/
def cancelledAggregate : OrderAggregate :=
  { order := sampleOrder OrderStatus.cancelled,
    items := [sampleItem ItemStatus.pending] }

/-- A ready order whose three transition timestamps are all stamped. -/
def stampedOrder : KitchenOrder :=
  { sampleOrder OrderStatus.ready with
    accepted_at := some 1, ready_at := some 1, served_at := some 1 }

/-! ## Helper lemmas -/

theorem setItemReady_getElem (l : List KitchenOrderItem) (i : Nat)
    (h : i < l.length) :
    ∃ it, (setItemReady l i)[i]? = some it ∧ it.status = ItemStatus.ready := by
  induction l generalizing i with
  | nil => simp at h
  | cons x xs ih =>
    cases i with
    | zero =>
      exact ⟨{ x with status := ItemStatus.ready }, by simp [setItemReady], rfl⟩
    | succ n =>
      simpa [setItemReady] using ih n (by simpa using h)

theorem setItemReady_of_allReady (l : List KitchenOrderItem) (i : Nat)
    (h : allReady l = true) : setItemReady l i = l := by
  induction l generalizing i with
  | nil => cases i <;> rfl
  | cons x xs ih =>
    simp only [allReady, List.all_cons, Bool.and_eq_true, decide_eq_true_eq] at h
    cases i with
    | zero =>
      simp only [setItemReady]
      cases x
      simp_all
    | succ n =>
      simp only [setItemReady]
      rw [ih n]
      exact h.2

theorem itemsPendingExists_eq (l : List KitchenOrderItem) :
    itemsPendingExists l = !allReady l := by
  induction l with
  | nil => rfl
  | cons x xs ih =>
    simp [itemsPendingExists, allReady, List.any_cons, List.all_cons,
      Bool.not_and, decide_not] at *
    rw [ih]

theorem itemMarkReady_items (agg : OrderAggregate) (i now : Nat) :
    (itemMarkReady agg i now).items = setItemReady agg.items i := by
  unfold itemMarkReady checkOrderReady
  split <;> rfl

theorem itemMarkReady_order (agg : OrderAggregate) (i now : Nat) :
    (itemMarkReady agg i now).order =
      if itemsPendingExists (setItemReady agg.items i) then agg.order
      else agg.order.mark_ready now := by
  unfold itemMarkReady checkOrderReady
  split <;> simp_all

/-! ## Claim theorems -/

/-- C1: `KitchenOrderItem.mark_ready` sets the item's status to ready
and then runs `_check_order_ready`: when every item of the owning order
is now ready, the order's own `mark_ready` transition fires (status
becomes ready and ready_at is stamped with the current time); when at
least one item is still not ready, the order is left entirely
unchanged. -/
theorem C1_item_ready_auto_transition (agg : OrderAggregate) (i now : Nat)
    (h : i < agg.items.length) :
    (∃ it, (itemMarkReady agg i now).items[i]? = some it ∧
      it.status = ItemStatus.ready) ∧
    (allReady (itemMarkReady agg i now).items = true →
      (itemMarkReady agg i now).order = agg.order.mark_ready now) ∧
    (allReady (itemMarkReady agg i now).items = false →
      (itemMarkReady agg i now).order = agg.order) := by
  refine ⟨?_, ?_, ?_⟩
  · rw [itemMarkReady_items]
    exact setItemReady_getElem _ _ h
  · intro hall
    rw [itemMarkReady_items] at hall
    rw [itemMarkReady_order, itemsPendingExists_eq, hall]
    rfl
  · intro hall
    rw [itemMarkReady_items] at hall
    rw [itemMarkReady_order, itemsPendingExists_eq, hall]
    rfl

theorem C1_witness :
    0 < sampleAggregate.items.length ∧
    ((∃ it, (itemMarkReady sampleAggregate 0 5).items[0]? = some it ∧
        it.status = ItemStatus.ready) ∧
      (allReady (itemMarkReady sampleAggregate 0 5).items = true →
        (itemMarkReady sampleAggregate 0 5).order =
          sampleAggregate.order.mark_ready 5) ∧
      (allReady (itemMarkReady sampleAggregate 0 5).items = false →
        (itemMarkReady sampleAggregate 0 5).order = sampleAggregate.order)) :=
  ⟨by decide, C1_item_ready_auto_transition sampleAggregate 0 5 (by decide)⟩

/-- C2 (amended): calling `mark_ready` again on an item of an order
whose items are already all ready leaves every item unchanged, but the
all-ready check re-fires: the owning order's `mark_ready` is invoked a
second time, so the order's status stays ready while `ready_at` is
restamped with the time of the second call. -/
theorem C2_mark_ready_again_restamps (agg : OrderAggregate) (i t : Nat)
    (h : allReady agg.items = true) :
    (itemMarkReady agg i t).items = agg.items ∧
    (itemMarkReady agg i t).order = agg.order.mark_ready t := by
  have hs := setItemReady_of_allReady agg.items i h
  constructor
  · rw [itemMarkReady_items, hs]
  · rw [itemMarkReady_order, hs, itemsPendingExists_eq, h]
    rfl

theorem C2_witness :
    allReady (itemMarkReady sampleAggregate 0 1).items = true ∧
    ((itemMarkReady (itemMarkReady sampleAggregate 0 1) 0 2).items =
        (itemMarkReady sampleAggregate 0 1).items ∧
      (itemMarkReady (itemMarkReady sampleAggregate 0 1) 0 2).order =
        (itemMarkReady sampleAggregate 0 1).order.mark_ready 2) :=
  ⟨by decide, C2_mark_ready_again_restamps (itemMarkReady sampleAggregate 0 1) 0 2 (by decide)⟩

/-- C2 counterexample: after the first `mark_ready` on the only item at
time 1 the order's ready_at is 1; a second `mark_ready` on the same,
already-ready item at time 2 restamps ready_at to 2 — the owning order
is altered a second time, so the second call is not side-effect free. -/
theorem C2_counterexample :
    (itemMarkReady sampleAggregate 0 1).order.ready_at = some 1 ∧
    (itemMarkReady (itemMarkReady sampleAggregate 0 1) 0 2).order.ready_at = some 2 ∧
    (itemMarkReady (itemMarkReady sampleAggregate 0 1) 0 2).order.ready_at ≠
      (itemMarkReady sampleAggregate 0 1).order.ready_at := by
  decide

/-- C9: `_check_order_ready` places no guard on the owning order's
status: whatever that status is — cancelled and served included — the
public item-bump on the last non-ready item reports success, drives
the order's status to ready and restamps ready_at. -/
theorem C9_check_has_no_order_status_guard (agg : OrderAggregate) (i now : Nat)
    (h : itemsPendingExists (setItemReady agg.items i) = false) :
    (bump_item agg i now).1.success = true ∧
    (bump_item agg i now).2.order.status = OrderStatus.ready ∧
    (bump_item agg i now).2.order.ready_at = some now := by
  unfold bump_item
  refine ⟨rfl, ?_, ?_⟩ <;>
    simp [itemMarkReady_order, h, KitchenOrder.mark_ready]

theorem C9_witness :
    cancelledAggregate.order.status = OrderStatus.cancelled ∧
    itemsPendingExists (setItemReady cancelledAggregate.items 0) = false ∧
    ((bump_item cancelledAggregate 0 7).1.success = true ∧
      (bump_item cancelledAggregate 0 7).2.order.status = OrderStatus.ready ∧
      (bump_item cancelledAggregate 0 7).2.order.ready_at = some 7) :=
  ⟨by decide, by decide,
    C9_check_has_no_order_status_guard cancelledAggregate 0 7 (by decide)⟩

/-- C10: `KitchenOrder.cancel` writes only the status field (it saves
with update_fields limited to status): sale_id, table data, order
number, priority, notes and all four timestamps keep their previous
values, and no cancellation timestamp or reason field exists to be
written. -/
theorem C10_cancel_touches_only_status (o : KitchenOrder) :
    o.cancel.status = OrderStatus.cancelled ∧
    o.cancel.sale_id = o.sale_id ∧
    o.cancel.table_id = o.table_id ∧
    o.cancel.table_number = o.table_number ∧
    o.cancel.order_number = o.order_number ∧
    o.cancel.priority = o.priority ∧
    o.cancel.notes = o.notes ∧
    o.cancel.created_at = o.created_at ∧
    o.cancel.accepted_at = o.accepted_at ∧
    o.cancel.ready_at = o.ready_at ∧
    o.cancel.served_at = o.served_at :=
  ⟨rfl, rfl, rfl, rfl, rfl, rfl, rfl, rfl, rfl, rfl, rfl⟩

/-- C7: the active-orders listing contains exactly the stored orders
whose status is pending or preparing, arranged by priority descending
and, among equal priorities, by created_at ascending. -/
theorem C7_display_sorted_priority_then_created (l : List KitchenOrder) :
    List.Sorted displayLE (displayOrders l) ∧
    List.Perm (displayOrders l) (l.filter isActiveStatus) ∧
    (∀ o, o ∈ displayOrders l ↔ o ∈ l ∧
      (o.status = OrderStatus.pending ∨ o.status = OrderStatus.preparing)) := by
  refine ⟨List.sorted_insertionSort displayLE _,
    List.perm_insertionSort displayLE _, fun o => ?_⟩
  unfold displayOrders
  rw [List.mem_insertionSort, List.mem_filter]
  simp [isActiveStatus]

/-- C4: evaluating the ingestion hook at a sale-created event with
auto-accept enabled: the first persisted snapshot already carries
status preparing while accepted_at is still null — on this path the
status write and the accepted_at write are not persisted together, so
the torn state is reachable by a reader. -/
theorem C4_auto_accept_persists_torn_state :
    ∃ o ∈ on_sale_created_order_trace true "s1" "42" 5,
      o.status = OrderStatus.preparing ∧ o.accepted_at = none := by
  decide

/-- C5: the bump dispatcher performs exactly the single forward
transition selected by the current status — pending to preparing,
preparing to ready, ready to served — and for every other status
(served, cancelled, paid) it changes nothing and returns a structured
no-action error; hence four consecutive bumps from pending give
preparing, ready, served, then a failure that leaves the order as it
was. -/
theorem C5_bump_dispatch (o : KitchenOrder) (now : Nat) :
    (o.status = OrderStatus.pending →
      bump_order o now =
        ({ success := true, status := some OrderStatus.preparing, error := none },
          o.fire now)) ∧
    (o.status = OrderStatus.preparing →
      bump_order o now =
        ({ success := true, status := some OrderStatus.ready, error := none },
          o.mark_ready now)) ∧
    (o.status = OrderStatus.ready →
      bump_order o now =
        ({ success := true, status := some OrderStatus.served, error := none },
          o.mark_served now)) ∧
    (o.status = OrderStatus.served ∨ o.status = OrderStatus.cancelled ∨
        o.status = OrderStatus.paid →
      bump_order o now =
        ({ success := false, status := none, error := some "No action available" }, o)) ∧
    ((bump_order (sampleOrder OrderStatus.pending) 1).2.status = OrderStatus.preparing ∧
      (bump_order (bump_order (sampleOrder OrderStatus.pending) 1).2 2).2.status =
        OrderStatus.ready ∧
      (bump_order (bump_order (bump_order (sampleOrder OrderStatus.pending) 1).2 2).2
          3).2.status = OrderStatus.served ∧
      (bump_order (bump_order (bump_order (bump_order (sampleOrder OrderStatus.pending)
          1).2 2).2 3).2 4).1.success = false ∧
      (bump_order (bump_order (bump_order (bump_order (sampleOrder OrderStatus.pending)
          1).2 2).2 3).2 4).2 =
        (bump_order (bump_order (bump_order (sampleOrder OrderStatus.pending)
          1).2 2).2 3).2) := by
  refine ⟨?_, ?_, ?_, ?_, by decide⟩
  · intro h
    simp [bump_order, h, KitchenOrder.fire, KitchenOrder.accept]
  · intro h
    simp [bump_order, h, KitchenOrder.mark_ready]
  · intro h
    simp [bump_order, h, KitchenOrder.mark_served]
  · intro h
    rcases h with h | h | h <;> simp [bump_order, h]

theorem C5_witness :
    sampleOrder OrderStatus.preparing = sampleOrder OrderStatus.preparing ∧
    (bump_order (sampleOrder OrderStatus.preparing) 3 =
      ({ success := true, status := some OrderStatus.ready, error := none },
        (sampleOrder OrderStatus.preparing).mark_ready 3)) ∧
    (bump_order (sampleOrder OrderStatus.cancelled) 3 =
      ({ success := false, status := none, error := some "No action available" },
        sampleOrder OrderStatus.cancelled)) :=
  ⟨rfl, (C5_bump_dispatch (sampleOrder OrderStatus.preparing) 3).2.1 (by decide),
    (C5_bump_dispatch (sampleOrder OrderStatus.cancelled) 3).2.2.2.1 (by decide)⟩

/-- C6: a mutating command whose guard fails returns a structured
failure — success false together with a human-readable reason — and
leaves the order untouched: start (accept) on any non-pending order
(a cancelled one included) and serve on any non-ready order. -/
theorem C6_guard_failure_is_structured_noop (o : KitchenOrder) (now : Nat) :
    (o.status ≠ OrderStatus.pending →
      start_order o now =
        ({ success := false, status := none, error := some "Order is not pending" }, o)) ∧
    (o.status ≠ OrderStatus.ready →
      serve_order o now =
        ({ success := false, status := none, error := some "Order is not ready" }, o)) := by
  constructor <;> intro h <;> simp [start_order, serve_order, h]

theorem C6_witness :
    (sampleOrder OrderStatus.cancelled).status ≠ OrderStatus.pending ∧
    (sampleOrder OrderStatus.cancelled).status ≠ OrderStatus.ready ∧
    (start_order (sampleOrder OrderStatus.cancelled) 4 =
      ({ success := false, status := none, error := some "Order is not pending" },
        sampleOrder OrderStatus.cancelled)) ∧
    (serve_order (sampleOrder OrderStatus.cancelled) 4 =
      ({ success := false, status := none, error := some "Order is not ready" },
        sampleOrder OrderStatus.cancelled)) :=
  ⟨by decide, by decide,
    (C6_guard_failure_is_structured_noop (sampleOrder OrderStatus.cancelled) 4).1 (by decide),
    (C6_guard_failure_is_structured_noop (sampleOrder OrderStatus.cancelled) 4).2 (by decide)⟩

/-- C3 (amended): across the public command surface created_at never
changes; each of accepted_at, ready_at, served_at, once non-null, stays
non-null, and a command changes one of them only by firing the
corresponding transition — the changed field is stamped to the current
time and the order's status is then the transition's target state
(preparing for accept, ready for mark_ready, served for mark_served) —
so each field is null until its transition first fires; but the
timestamps are not set exactly once: re-firing a transition (bumping an
item of an already fully-ready order, or serving again after a recall)
restamps the field with a new value. -/
theorem C3_timestamp_discipline (agg : OrderAggregate) (c : Command) (now : Nat) :
    ((applyCommand agg now c).order.created_at = agg.order.created_at) ∧
    (agg.order.accepted_at.isSome = true →
      ((applyCommand agg now c).order.accepted_at).isSome = true) ∧
    (agg.order.ready_at.isSome = true →
      ((applyCommand agg now c).order.ready_at).isSome = true) ∧
    (agg.order.served_at.isSome = true →
      ((applyCommand agg now c).order.served_at).isSome = true) ∧
    ((applyCommand agg now c).order.accepted_at ≠ agg.order.accepted_at →
      (applyCommand agg now c).order.accepted_at = some now ∧
      (applyCommand agg now c).order.status = OrderStatus.preparing) ∧
    ((applyCommand agg now c).order.ready_at ≠ agg.order.ready_at →
      (applyCommand agg now c).order.ready_at = some now ∧
      (applyCommand agg now c).order.status = OrderStatus.ready) ∧
    ((applyCommand agg now c).order.served_at ≠ agg.order.served_at →
      (applyCommand agg now c).order.served_at = some now ∧
      (applyCommand agg now c).order.status = OrderStatus.served) := by
  rcases c <;>
    simp only [applyCommand, start_order, bump_order, complete_order, serve_order,
      recall_order, cancel_order, set_priority, bump_item, itemMarkReady,
      checkOrderReady, KitchenOrder.fire, KitchenOrder.accept,
      KitchenOrder.mark_ready, KitchenOrder.mark_served, KitchenOrder.recall,
      KitchenOrder.cancel] <;>
    (try split_ifs) <;> simp_all

/-- C3 counterexample: bumping the only item of the sample aggregate at
time 1 stamps the order's ready_at to 1; bumping the same item again at
time 2 moves the already-set ready_at to 2 — a transition timestamp
does not keep its first value. -/
theorem C3_counterexample :
    (applyCommand sampleAggregate 1 (Command.bumpItem 0)).order.ready_at = some 1 ∧
    (applyCommand (applyCommand sampleAggregate 1 (Command.bumpItem 0)) 2
        (Command.bumpItem 0)).order.ready_at = some 2 ∧
    (applyCommand (applyCommand sampleAggregate 1 (Command.bumpItem 0)) 2
        (Command.bumpItem 0)).order.ready_at ≠
      (applyCommand sampleAggregate 1 (Command.bumpItem 0)).order.ready_at := by
  decide

theorem C3_witness :
    stampedOrder.accepted_at.isSome = true ∧
    ((applyCommand (OrderAggregate.mk stampedOrder []) 9
        Command.serve).order.accepted_at).isSome = true ∧
    (applyCommand (OrderAggregate.mk stampedOrder []) 9
        Command.serve).order.served_at ≠ stampedOrder.served_at ∧
    ((applyCommand (OrderAggregate.mk stampedOrder []) 9
        Command.serve).order.served_at = some 9 ∧
      (applyCommand (OrderAggregate.mk stampedOrder []) 9
        Command.serve).order.status = OrderStatus.served) :=
  ⟨by decide,
    (C3_timestamp_discipline (OrderAggregate.mk stampedOrder []) Command.serve 9).2.1
      (by decide),
    by decide,
    (C3_timestamp_discipline (OrderAggregate.mk stampedOrder []) Command.serve
      9).2.2.2.2.2.2 (by decide)⟩


/-! ## Settings field lemmas -/

theorem applyNumField_lookup_none (data : List (String × JVal))
    (c : KitchenSettings) (f : String) (h : List.lookup f data = none) :
    applyNumField data c f = c := by
  unfold applyNumField
  rw [h]

theorem applyNumField_parse_fail (data : List (String × JVal))
    (c : KitchenSettings) (f : String) (v : JVal)
    (hl : List.lookup f data = some v) (hv : pyInt v = none) :
    applyNumField data c f = c := by
  unfold applyNumField
  rw [hl]
  show (match pyInt v with
    | some n => setIntField c f n
    | none => c) = c
  rw [hv]

theorem applyNumField_parse_ok (data : List (String × JVal))
    (c : KitchenSettings) (f : String) (v : JVal) (n : Int)
    (hl : List.lookup f data = some v) (hv : pyInt v = some n) :
    applyNumField data c f = setIntField c f n := by
  unfold applyNumField
  rw [hl]
  show (match pyInt v with
    | some n => setIntField c f n
    | none => c) = setIntField c f n
  rw [hv]

theorem applyBoolField_lookup_none (data : List (String × JVal))
    (c : KitchenSettings) (b : String) (h : List.lookup b data = none) :
    applyBoolField data c b = c := by
  unfold applyBoolField
  rw [h]

theorem applyBoolField_lookup_some (data : List (String × JVal))
    (c : KitchenSettings) (b : String) (u : JVal)
    (h : List.lookup b data = some u) :
    applyBoolField data c b = setBoolField c b (pyBool u) := by
  unfold applyBoolField
  rw [h]

theorem getIntField_setBoolField (c : KitchenSettings) (g : String) (v : Bool)
    (f : String) : getIntField (setBoolField c g v) f = getIntField c f := by
  unfold getIntField
  split_ifs <;> (try rfl) <;> (unfold setBoolField; split_ifs <;> rfl)

theorem getBoolField_setIntField (c : KitchenSettings) (g : String) (n : Int)
    (b : String) : getBoolField (setIntField c g n) b = getBoolField c b := by
  unfold getBoolField
  split_ifs <;> (try rfl) <;> (unfold setIntField; split_ifs <;> rfl)

theorem getIntField_setIntField_ne (c : KitchenSettings) (g : String) (n : Int)
    (f : String) (h : f ≠ g) :
    getIntField (setIntField c g n) f = getIntField c f := by
  unfold getIntField
  split_ifs <;> (try rfl) <;> (unfold setIntField; split_ifs <;> simp_all)

theorem getIntField_setIntField_self (c : KitchenSettings) (f : String) (n : Int)
    (h : f ∈ numericFields) : getIntField (setIntField c f n) f = n := by
  simp only [numericFields, List.mem_cons, List.not_mem_nil, or_false] at h
  rcases h with h | h | h | h | h <;> subst h <;> rfl

set_option maxHeartbeats 1600000 in
theorem getBoolField_setBoolField_ne (c : KitchenSettings) (g : String) (v : Bool)
    (b : String) (h : b ≠ g) :
    getBoolField (setBoolField c g v) b = getBoolField c b := by
  unfold getBoolField
  split_ifs <;> (try rfl) <;>
    (unfold setBoolField;
      split_ifs <;> first | rfl | (exfalso; subst_vars; exact h rfl))

theorem getBoolField_setBoolField_self (c : KitchenSettings) (b : String) (v : Bool)
    (h : b ∈ boolFields) : getBoolField (setBoolField c b v) b = v := by
  simp only [boolFields, List.mem_cons, List.not_mem_nil, or_false] at h
  rcases h with h | h | h | h | h | h | h <;> subst h <;> rfl

theorem getIntField_applyBoolField (data : List (String × JVal))
    (c : KitchenSettings) (g f : String) :
    getIntField (applyBoolField data c g) f = getIntField c f := by
  cases hl : List.lookup g data with
  | none => rw [applyBoolField_lookup_none data c g hl]
  | some u => rw [applyBoolField_lookup_some data c g u hl, getIntField_setBoolField]

theorem getBoolField_applyNumField (data : List (String × JVal))
    (c : KitchenSettings) (g b : String) :
    getBoolField (applyNumField data c g) b = getBoolField c b := by
  cases hl : List.lookup g data with
  | none => rw [applyNumField_lookup_none data c g hl]
  | some v =>
    cases hv : pyInt v with
    | none => rw [applyNumField_parse_fail data c g v hl hv]
    | some n => rw [applyNumField_parse_ok data c g v n hl hv, getBoolField_setIntField]

theorem getIntField_applyNumField_ne (data : List (String × JVal))
    (c : KitchenSettings) (g f : String) (h : f ≠ g) :
    getIntField (applyNumField data c g) f = getIntField c f := by
  cases hl : List.lookup g data with
  | none => rw [applyNumField_lookup_none data c g hl]
  | some v =>
    cases hv : pyInt v with
    | none => rw [applyNumField_parse_fail data c g v hl hv]
    | some n =>
      rw [applyNumField_parse_ok data c g v n hl hv,
        getIntField_setIntField_ne c g n f h]

theorem getBoolField_applyBoolField_ne (data : List (String × JVal))
    (c : KitchenSettings) (g b : String) (h : b ≠ g) :
    getBoolField (applyBoolField data c g) b = getBoolField c b := by
  cases hl : List.lookup g data with
  | none => rw [applyBoolField_lookup_none data c g hl]
  | some u =>
    rw [applyBoolField_lookup_some data c g u hl,
      getBoolField_setBoolField_ne c g (pyBool u) b h]

theorem getIntField_foldl_bool (L : List String) (data : List (String × JVal))
    (c : KitchenSettings) (f : String) :
    getIntField (L.foldl (applyBoolField data) c) f = getIntField c f := by
  induction L generalizing c with
  | nil => rfl
  | cons g L ih =>
    simp only [List.foldl]
    rw [ih, getIntField_applyBoolField]

theorem getBoolField_foldl_num (L : List String) (data : List (String × JVal))
    (c : KitchenSettings) (b : String) :
    getBoolField (L.foldl (applyNumField data) c) b = getBoolField c b := by
  induction L generalizing c with
  | nil => rfl
  | cons g L ih =>
    simp only [List.foldl]
    rw [ih, getBoolField_applyNumField]

theorem getIntField_foldl_num_not_mem (L : List String)
    (data : List (String × JVal)) (c : KitchenSettings) (f : String)
    (h : f ∉ L) :
    getIntField (L.foldl (applyNumField data) c) f = getIntField c f := by
  induction L generalizing c with
  | nil => rfl
  | cons g L ih =>
    simp only [List.foldl]
    rw [ih _ (fun hm => h (List.mem_cons_of_mem g hm)),
      getIntField_applyNumField_ne data c g f
        (fun he => h (he ▸ List.mem_cons_self g L))]

theorem getBoolField_foldl_bool_not_mem (L : List String)
    (data : List (String × JVal)) (c : KitchenSettings) (b : String)
    (h : b ∉ L) :
    getBoolField (L.foldl (applyBoolField data) c) b = getBoolField c b := by
  induction L generalizing c with
  | nil => rfl
  | cons g L ih =>
    simp only [List.foldl]
    rw [ih _ (fun hm => h (List.mem_cons_of_mem g hm)),
      getBoolField_applyBoolField_ne data c g b
        (fun he => h (he ▸ List.mem_cons_self g L))]

theorem getIntField_foldl_num_fail (L : List String)
    (data : List (String × JVal)) (c : KitchenSettings) (f : String)
    (v : JVal) (hlook : List.lookup f data = some v) (hfail : pyInt v = none) :
    getIntField (L.foldl (applyNumField data) c) f = getIntField c f := by
  induction L generalizing c with
  | nil => rfl
  | cons g L ih =>
    simp only [List.foldl]
    rw [ih]
    by_cases hg : f = g
    · subst hg
      rw [applyNumField_parse_fail data c f v hlook hfail]
    · exact getIntField_applyNumField_ne data c g f hg

theorem getIntField_foldl_num_applied (L : List String)
    (data : List (String × JVal)) (c : KitchenSettings) (g : String)
    (w : JVal) (m : Int) (hnd : L.Nodup) (hgL : g ∈ L)
    (hgnum : g ∈ numericFields) (hlw : List.lookup g data = some w)
    (hm : pyInt w = some m) :
    getIntField (L.foldl (applyNumField data) c) g = m := by
  induction L generalizing c with
  | nil => cases hgL
  | cons a L ih =>
    simp only [List.foldl]
    rcases List.mem_cons.mp hgL with h | h
    · subst h
      rw [getIntField_foldl_num_not_mem L data _ g (List.nodup_cons.mp hnd).1,
        applyNumField_parse_ok data c g w m hlw hm,
        getIntField_setIntField_self c g m hgnum]
    · exact ih _ (List.nodup_cons.mp hnd).2 h

theorem getBoolField_foldl_bool_applied (L : List String)
    (data : List (String × JVal)) (c : KitchenSettings) (b : String)
    (u : JVal) (hnd : L.Nodup) (hbL : b ∈ L) (hbbool : b ∈ boolFields)
    (hlu : List.lookup b data = some u) :
    getBoolField (L.foldl (applyBoolField data) c) b = pyBool u := by
  induction L generalizing c with
  | nil => cases hbL
  | cons a L ih =>
    simp only [List.foldl]
    rcases List.mem_cons.mp hbL with h | h
    · subst h
      rw [getBoolField_foldl_bool_not_mem L data _ b (List.nodup_cons.mp hnd).1,
        applyBoolField_lookup_some data c b u hlu,
        getBoolField_setBoolField_self c b (pyBool u) hbbool]
    · exact ih _ (List.nodup_cons.mp hnd).2 h

/-- C8: in a settings-save request, a numeric field whose supplied
value does not parse as an integer is silently skipped — it keeps its
previous value — while every other field of the same request (numeric
fields with parseable values, and boolean fields) is still applied, and
the request as a whole reports success. -/
theorem C8_settings_save_skips_bad_numeric (c : KitchenSettings)
    (data : List (String × JVal)) (f : String) (v : JVal)
    (hf : f ∈ numericFields) (hlook : List.lookup f data = some v)
    (hfail : pyInt v = none) :
    (settings_save c (some data)).1 = true ∧
    getIntField (settings_save c (some data)).2 f = getIntField c f ∧
    (∀ g w m, g ∈ numericFields → List.lookup g data = some w →
      pyInt w = some m → getIntField (settings_save c (some data)).2 g = m) ∧
    (∀ b u, b ∈ boolFields → List.lookup b data = some u →
      getBoolField (settings_save c (some data)).2 b = pyBool u) := by
  refine ⟨rfl, ?_, ?_, ?_⟩
  · show getIntField (numericFields.foldl (applyNumField data)
      (boolFields.foldl (applyBoolField data) c)) f = getIntField c f
    rw [getIntField_foldl_num_fail numericFields data _ f v hlook hfail,
      getIntField_foldl_bool]
  · intro g w m hg hlw hm
    exact getIntField_foldl_num_applied numericFields data _ g w m
      (by decide) hg hg hlw hm
  · intro b u hb hlu
    show getBoolField (numericFields.foldl (applyNumField data)
      (boolFields.foldl (applyBoolField data) c)) b = pyBool u
    rw [getBoolField_foldl_num]
    exact getBoolField_foldl_bool_applied boolFields data c b u
      (by decide) hb hb hlu

theorem C8_witness :
    "warning_time_minutes" ∈ numericFields ∧
    List.lookup "warning_time_minutes" sampleSaveData = some (JVal.jstr "abc") ∧
    pyInt (JVal.jstr "abc") = none ∧
    (settings_save defaultSettings (some sampleSaveData)).1 = true ∧
    getIntField (settings_save defaultSettings (some sampleSaveData)).2
      "warning_time_minutes" = getIntField defaultSettings "warning_time_minutes" ∧
    getIntField (settings_save defaultSettings (some sampleSaveData)).2
      "critical_time_minutes" = 45 ∧
    getBoolField (settings_save defaultSettings (some sampleSaveData)).2
      "show_timer" = pyBool (JVal.jbool false) :=
  ⟨by decide, by decide, by decide,
    (C8_settings_save_skips_bad_numeric defaultSettings sampleSaveData
      "warning_time_minutes" (JVal.jstr "abc") (by decide) (by decide) (by decide)).1,
    (C8_settings_save_skips_bad_numeric defaultSettings sampleSaveData
      "warning_time_minutes" (JVal.jstr "abc") (by decide) (by decide) (by decide)).2.1,
    (C8_settings_save_skips_bad_numeric defaultSettings sampleSaveData
      "warning_time_minutes" (JVal.jstr "abc") (by decide) (by decide) (by decide)).2.2.1
      "critical_time_minutes" (JVal.jstr "45") 45 (by decide) (by decide) (by decide),
    (C8_settings_save_skips_bad_numeric defaultSettings sampleSaveData
      "warning_time_minutes" (JVal.jstr "abc") (by decide) (by decide) (by decide)).2.2.2
      "show_timer" (JVal.jbool false) (by decide) (by decide)⟩
